import Mathlib

/-!
Shallow embedding of the SPRADA backend's transactional request-scoped
authorization mechanism and the HTTP middlewares the specification's claims
are about.

Sources embedded here:
* `src/src/middleware/transaction.js` — `attachTransactionMiddleware`'s `req.txRun`
* `src/src/middleware/db.middleware.js` — `dbMiddleware`'s `req.txRun`
* `src/src/index.js` (IIFE around line 620) — the `req.txRun` wired into the app
* `src/unnamed/part_009` — `setAppUserGucs`
* `src/src/routes/products.js` — `setAppUserIdIfPresent`
* `src/unnamed/part_004` (`src/middleware/jwt.js`) — `jwtAuthMiddleware`
* `src/src/middleware/permissions.js` — `PERMISSIONS`, `hasPermission`
* `src/unnamed/part_005` (categories router) — `slugify`,
  `normalizeTradeTypeInput2`, `requireEditorOrAdmin2`, `POST /api/categories`

Database interaction is modelled as a trace of observable events (`Op`).
Each `await client.query(...)` is one attempted step: it emits its event and
either succeeds or throws an error string, chosen by an environment record
that stands for the behaviour of the external database on this run.
JavaScript's `try/catch/finally` is translated explicitly.  JavaScript
truthiness on the string-or-nullish values involved is `truthy` below
(`null`/`undefined` ↦ `none`, `''` ↦ `some ""`, both falsy).
-/

namespace Sprada

/-- Observable events on a pooled client connection, plus `console.warn` log
events.  `stmt n` stands for an arbitrary business statement issued by the
caller-supplied unit-of-work function `f`. -/
inductive Op where
  | beginTx : Op
  | setLocalUserId : String → Op
  | setLocalUserRole : String → Op
  | setConfigUserId : String → Op
  | setConfigUserRole : String → Op
  | stmt : Nat → Op
  | commit : Op
  | rollback : Op
  | release : Op
  | warn : String → Op
  deriving DecidableEq

/-- JavaScript truthiness of a string-or-nullish value: `null`/`undefined`
(`none`) and the empty string are falsy. -/
def truthy : Option String → Bool
  | none => false
  | some s => !(s = "")

/-- JavaScript `a || b` on string-or-nullish values. -/
def jsOr (a b : Option String) : Option String :=
  if truthy a then a else b

/-- Run a sequence of attempted database steps.  Each step contributes the
events it emits and, when it throws, stops the run with its error (the
events emitted up to and including the failing query attempt are kept). -/
def runSteps : List (List Op × Option String) → List Op × Option String
  | [] => ([], none)
  | (ops, err) :: rest =>
    match err with
    | some e => (ops, some e)
    | none =>
      let r := runSteps rest
      (ops ++ r.1, r.2)

/-- The error, if any, thrown by the unit-of-work function `f`. -/
def fErr {α : Type} : Except String α → Option String
  | .ok _ => none
  | .error e => some e

/-- Shared shape of the three `txRun` variants: run the `try` body's steps;
on success append `client.release()` (the `finally`) and return `f`'s result;
on error attempt `ROLLBACK`, then release.  `swallow = true` models
`try { await client.query('ROLLBACK'); } catch {}` (the `index.js` variant):
a rollback failure is discarded and the original error is re-thrown.
`swallow = false` models a bare `await client.query('ROLLBACK')` inside the
`catch` (the `transaction.js` and `db.middleware.js` variants): a rollback
failure is itself thrown, replacing the original error. -/
def runTx {α : Type} (steps : List (List Op × Option String))
    (fResult : Except String α) (rollbackErr : Option String)
    (swallow : Bool) : List Op × Except String α :=
  match runSteps steps with
  | (t, none) => (t ++ [Op.release], fResult)
  | (t, some e) =>
    (t ++ [Op.rollback, Op.release],
     if swallow then Except.error e
     else
       match rollbackErr with
       | some e2 => Except.error e2
       | none => Except.error e)

/-- Behaviour of the external database on one run: for each infrastructure
query of `txRun`, the error it throws, if any; and the events emitted and the
result returned (or error thrown) by the caller-supplied function `f`.
The `db.middleware.js` and `index.js` variants issue no `SET LOCAL`
statements, so they read only the fields they use. -/
structure TxEnv (α : Type) where
  beginErr : Option String
  setIdErr : Option String
  setRoleErr : Option String
  fTrace : List Op
  fResult : Except String α
  commitErr : Option String
  rollbackErr : Option String

/-- The `try` body of `transaction.js`'s `req.txRun(fn, { userId, userRole })`:
`BEGIN`; `if (userId)` set `app.user_id` with `SET LOCAL`; `if (userRole)`
set `app.user_role`; run `fn`; `COMMIT`. -/
def txBodySteps {α : Type} (userId userRole : Option String) (env : TxEnv α) :
    List (List Op × Option String) :=
  [([Op.beginTx], env.beginErr)]
    ++ (if truthy userId then
          [([Op.setLocalUserId (userId.getD "")], env.setIdErr)]
        else [])
    ++ (if truthy userRole then
          [([Op.setLocalUserRole (userRole.getD "")], env.setRoleErr)]
        else [])
    ++ [(env.fTrace, fErr env.fResult), ([Op.commit], env.commitErr)]

/-- `req.txRun` from `src/src/middleware/transaction.js`: the catch block is a
bare `await client.query('ROLLBACK'); throw err;`, so a failing rollback
throws its own error in place of `err`; `finally { client.release(); }`. -/
def txRun {α : Type} (userId userRole : Option String) (env : TxEnv α) :
    List Op × Except String α :=
  runTx (txBodySteps userId userRole env) env.fResult env.rollbackErr false

/-- `req.txRun` from `src/src/middleware/db.middleware.js`: identical control
flow but with no `SET LOCAL` steps at all. -/
def dbTxRun {α : Type} (env : TxEnv α) : List Op × Except String α :=
  runTx [([Op.beginTx], env.beginErr),
         (env.fTrace, fErr env.fResult),
         ([Op.commit], env.commitErr)]
    env.fResult env.rollbackErr false

/-- `req.txRun` wired into the app by `src/src/index.js`: optional
`ctx.settings` statements run after `BEGIN`; the catch block wraps the
rollback in `try { ... } catch {}`, so a rollback failure is silently
discarded and the original error propagates. -/
def indexTxRun {α : Type} (settings : List (List Op × Option String))
    (env : TxEnv α) : List Op × Except String α :=
  runTx ([([Op.beginTx], env.beginErr)] ++ settings
          ++ [(env.fTrace, fErr env.fResult), ([Op.commit], env.commitErr)])
    env.fResult env.rollbackErr true

/-- A JavaScript `req.user` object as consulted by the GUC helpers. -/
structure JsUser where
  id : Option String
  user_id : Option String
  sub : Option String
  role : Option String
  role_id : Option String
  roleId : Option String
  deriving DecidableEq

/-- `req.user && (req.user.id || req.user.user_id || req.user.sub) ?
String(...) : null` from `setAppUserGucs` / `setAppUserIdIfPresent`. -/
def jsUserId : Option JsUser → Option String
  | none => none
  | some u =>
    let c := jsOr (jsOr u.id u.user_id) u.sub
    if truthy c then c else none

/-- `req.user && (req.user.role || req.user.role_id || req.user.roleId) ?
String(...) : null` from `setAppUserGucs`. -/
def jsUserRole : Option JsUser → Option String
  | none => none
  | some u =>
    let c := jsOr (jsOr u.role u.role_id) u.roleId
    if truthy c then c else none

/-- Behaviour of the database on the two `set_config` calls of the GUC
helpers: the error thrown by each call, if any. -/
structure GucEnv where
  setIdErr : Option String
  setRoleErr : Option String
  deriving DecidableEq

/-- `setAppUserGucs(client, req)` from `src/unnamed/part_009`: each
`set_config` call sits in its own `try { ... } catch (err) { console.warn(...) }`,
so a failure emits a warn event and the helper continues; the helper never
throws. Its value is the trace of events it emits on the client. -/
def setAppUserGucs (env : GucEnv) (user : Option JsUser) : List Op :=
  (match jsUserId user with
   | none => []
   | some v =>
     match env.setIdErr with
     | none => [Op.setConfigUserId v]
     | some e => [Op.setConfigUserId v, Op.warn ("setAppUserGucs app.user_id " ++ e)])
    ++
  (match jsUserRole user with
   | none => []
   | some v =>
     match env.setRoleErr with
     | none => [Op.setConfigUserRole v]
     | some e => [Op.setConfigUserRole v, Op.warn ("setAppUserGucs app.user_role " ++ e)])

/-- `setAppUserIdIfPresent(client, req)` from `src/src/routes/products.js`:
same catch-and-warn discipline, `app.user_id` only. -/
def setAppUserIdIfPresent (setIdErr : Option String) (user : Option JsUser) :
    List Op :=
  match jsUserId user with
  | none => []
  | some v =>
    match setIdErr with
    | none => [Op.setConfigUserId v]
    | some e => [Op.setConfigUserId v, Op.warn ("setAppUserIdIfPresent " ++ e)]

/-- Projection of a JSON response body onto the fields the claims are about.
A field is `none` when the JSON object does not carry it at all.
`categorySlug` stands for `body.category.slug` in the categories route's
success payload. -/
structure Body where
  ok : Option Bool
  success : Option Bool
  error : Option String
  detail : Option String
  categorySlug : Option String
  deriving DecidableEq

/-- An HTTP response: `res.status(s).json(body)`. -/
structure Response where
  status : Nat
  body : Body
  deriving DecidableEq

/-- The resolved `req.user` attached by the authentication middleware:
`{ id, role }` (the `raw` payload is dropped; no claim consults it). `role`
is the numeric role claim of the verified token, absent when the payload has
none. -/
structure AuthUser where
  id : Option String
  role : Option Nat
  deriving DecidableEq

/-- What a middleware does with a request: call `next()` (with the resulting
`req.user`), or write a response and stop. -/
inductive MWResult where
  | next : Option AuthUser → MWResult
  | respond : Response → MWResult
  deriving DecidableEq

/-- A verified token payload, projected onto the fields
`jwtAuthMiddleware` reads: `sub`, `user_id`, `id` and the role claim. -/
structure Payload where
  sub : Option String
  user_id : Option String
  id : Option String
  role : Option Nat
  deriving DecidableEq

/-- Character-list version of JavaScript `s.startsWith(pat)` (first argument
is the pattern). -/
def charsStart : List Char → List Char → Bool
  | [], _ => true
  | _ :: _, [] => false
  | p :: ps, c :: cs => p == c && charsStart ps cs

/-- JavaScript `s.startsWith(pat)`. -/
def jsStarts (s pat : String) : Bool :=
  charsStart pat.data s.data

/-- The response body of the middleware's 401: `{ success: false, error:
'invalid_token' }` — note there is no `ok` field. -/
def jwtInvalidBody : Body :=
  { ok := none, success := some false, error := some "invalid_token",
    detail := none, categorySlug := none }

/-- `jwtAuthMiddleware` from `src/unnamed/part_004` (`src/middleware/jwt.js`),
parametrised by the behaviour of `jwt.verify(token, JWT_SECRET)`: `none`
models a verification throw (malformed, expired, bad signature), `some p` a
verified payload.  `auth.slice(7)` is `drop 7` on characters (the inputs of
interest are ASCII, where the two agree).  The outer catch-all 500 guards
only against exceptions of the middleware itself, which the model has none
of, so it is not represented. -/
def jwtAuthMiddleware (verify : String → Option Payload)
    (header : Option String) : MWResult :=
  match (if jsStarts (header.getD "") "Bearer " then
           some (String.mk ((header.getD "").data.drop 7))
         else none) with
  | none => MWResult.next none
  | some t =>
    if t = "" then MWResult.next none
    else
      match verify t with
      | none => MWResult.respond { status := 401, body := jwtInvalidBody }
      | some p =>
        MWResult.next (some { id := jsOr (jsOr p.sub p.user_id) p.id,
                              role := p.role })

/-- Whether a middleware result is an explicit unauthorized (401) signal. -/
def isUnauthorized : MWResult → Bool
  | MWResult.respond r => r.status == 401
  | MWResult.next _ => false

/-- Role constants from `src/src/middleware/permissions.js`. -/
def ROLE_ADMIN : Nat := 1

/-- Editor role constant. -/
def ROLE_EDITOR : Nat := 2

/-- User role constant. -/
def ROLE_USER : Nat := 3

/-- Guest (anonymous) role constant. -/
def ROLE_GUEST : Nat := 4

/-- The static `PERMISSIONS` registry from
`src/src/middleware/permissions.js`. -/
def PERMISSIONS : List (String × List Nat) :=
  [("blog.create", [ROLE_ADMIN]),
   ("blog.update", [ROLE_ADMIN]),
   ("blog.delete", [ROLE_ADMIN]),
   ("blog.publish", [ROLE_ADMIN]),
   ("blog.upload", [ROLE_ADMIN]),
   ("blog.comment", [ROLE_ADMIN, ROLE_USER, ROLE_EDITOR]),
   ("blog.like", [ROLE_ADMIN, ROLE_USER, ROLE_EDITOR]),
   ("blog.read", [ROLE_ADMIN, ROLE_EDITOR, ROLE_USER, ROLE_GUEST])]

/-- `PERMISSIONS[permissionName]`: `none` models `undefined`. -/
def lookupPermission (n : String) : Option (List Nat) :=
  (PERMISSIONS.find? (fun p => p.1 == n)).map (fun p => p.2)

/-- Body of the role-gate's 500: `{ error: 'server_error' }` — no `ok`. -/
def gateServerErrorBody : Body :=
  { ok := none, success := none, error := some "server_error",
    detail := none, categorySlug := none }

/-- Body of the role-gate's anonymous 403: `{ error: 'not_allowed' }`. -/
def gateNotAllowedBody : Body :=
  { ok := none, success := none, error := some "not_allowed",
    detail := none, categorySlug := none }

/-- Body of the role-gate's authenticated 403: `{ error: 'forbidden' }`. -/
def gateForbiddenBody : Body :=
  { ok := none, success := none, error := some "forbidden",
    detail := none, categorySlug := none }

/-- The middleware returned by `hasPermission(permissionName)` from
`src/src/middleware/permissions.js`, applied to a request whose `req.user`
is `user`.  An absent registry entry is `undefined`, hence falsy, hence the
500 branch; `allowedRoles.includes(user.role)` with a missing role claim
compares `undefined` against numbers and fails. -/
def hasPermission (permissionName : String) (user : Option AuthUser) :
    MWResult :=
  match lookupPermission permissionName with
  | none => MWResult.respond { status := 500, body := gateServerErrorBody }
  | some allowedRoles =>
    match user with
    | none =>
      if allowedRoles.contains ROLE_GUEST then MWResult.next none
      else MWResult.respond { status := 403, body := gateNotAllowedBody }
    | some u =>
      if (match u.role with
          | some r => allowedRoles.contains r
          | none => false) then MWResult.next (some u)
      else MWResult.respond { status := 403, body := gateForbiddenBody }

/-- A route guarded by `hasPermission(...)`: the downstream handler (which is
where any transaction is begun and any pooled connection acquired, emitting
events) runs only when the gate calls `next()`; otherwise the gate's response
is sent and no database event occurs. -/
def runGate (permissionName : String) (user : Option AuthUser)
    (handler : Option AuthUser → List Op × Response) : List Op × Response :=
  match hasPermission permissionName user with
  | MWResult.next u => handler u
  | MWResult.respond r => ([], r)

/-- ASCII lower-casing of one character, as `toLowerCase()` acts on the
ASCII inputs the claims use. -/
def jsToLower (c : Char) : Char :=
  if 'A' ≤ c ∧ c ≤ 'Z' then Char.ofNat (c.toNat + 32) else c

/-- The whitespace characters `trim()` and `\s` recognise on the inputs of
interest. -/
def jsIsSpace (c : Char) : Bool :=
  c == ' ' || c == '\t' || c == '\n' || c == '\r'

/-- JavaScript `trim()` on a character list. -/
def jsTrimChars (l : List Char) : List Char :=
  ((l.dropWhile jsIsSpace).reverse.dropWhile jsIsSpace).reverse

/-- Membership in the character class `[a-z0-9\-_ ]` of `slugify`'s keep
step. -/
def slugKeep (c : Char) : Bool :=
  ('a' ≤ c && c ≤ 'z') || ('0' ≤ c && c ≤ '9') || c == '-' || c == '_'
    || c == ' '

/-- Replace every maximal run of characters satisfying `p` by the single
character `r`; the Boolean records whether the previous character was inside
such a run.  This is `.replace(/X+/g, r)` for a character class `X`. -/
def squash (p : Char → Bool) (r : Char) : List Char → Bool → List Char
  | [], _ => []
  | c :: rest, inRun =>
    if p c then
      if inRun then squash p r rest true
      else r :: squash p r rest true
    else c :: squash p r rest false

/-- `.replace(/^-|-$/g, "")`: one leading and one trailing hyphen are
removed (the global regex matches each anchor at most once). -/
def stripOneEdgeHyphens (l : List Char) : List Char :=
  let l1 := match l with
    | '-' :: t => t
    | other => other
  match l1.reverse with
  | '-' :: t => t.reverse
  | _ => l1

/-- `slugify(text)` from `src/unnamed/part_005`: lower-case, trim, drop
characters outside `[a-z0-9\-_ ]`, turn whitespace runs into `-`, collapse
hyphen runs, strip edge hyphens.  After the keep step the only whitespace
left is `' '`, so the `\s+` step squashes space runs. -/
def slugify (text : String) : String :=
  let l0 := text.data.map jsToLower
  let l1 := jsTrimChars l0
  let l2 := l1.filter slugKeep
  let l3 := squash (fun c => c == ' ') '-' l2 false
  let l4 := squash (fun c => c == '-') '-' l3 false
  String.mk (stripOneEdgeHyphens l4)

/-- The `ALLOWED_TRADE_TYPES2` set of the categories router. -/
def ALLOWED_TRADE_TYPES2 : List String := ["import", "export", "both"]

/-- `normalizeTradeTypeInput2(v)` from `src/unnamed/part_005`. -/
def normalizeTradeTypeInput2 (v : Option String) : Option String :=
  match v with
  | none => none
  | some s =>
    let t := String.mk (jsTrimChars (s.data.map jsToLower))
    if t = "" then none
    else if ALLOWED_TRADE_TYPES2.contains t then some t else none

/-- The request body of `POST /api/categories`, projected onto the fields
the handler reads. -/
structure CatBody where
  name : Option String
  slug : Option String
  trade_type : Option String
  description : Option String
  parent_id : Option String
  sort_order : Option Int
  deriving DecidableEq

/-- A row of the `categories` table, restricted to the columns the handler
writes and reads back. -/
structure Category where
  id : String
  slug : String
  name : String
  description : Option String
  parent_id : Option String
  sort_order : Int
  trade_type : String
  deriving DecidableEq

/-- `requireEditorOrAdmin2(req, res)` from `src/unnamed/part_005`: `none`
means the guard passed (the source returns `null`); `Number(req.user.role)`
must be `1` (admin) or `2` (editor). -/
def requireEditorOrAdmin2 (user : Option AuthUser) : Option Response :=
  match user with
  | none =>
    some { status := 401,
           body := { ok := some false, success := none,
                     error := some "unauthorized", detail := none,
                     categorySlug := none } }
  | some u =>
    match u.role with
    | some 1 => none
    | some 2 => none
    | _ =>
      some { status := 403,
             body := { ok := some false, success := none,
                       error := some "forbidden", detail := none,
                       categorySlug := none } }

/-- Body of the handler's 409: `{ ok: false, error: 'slug_conflict' }`. -/
def slugConflictBody : Body :=
  { ok := some false, success := none, error := some "slug_conflict",
    detail := none, categorySlug := none }

/-- An `{ ok: false, error: code }` body of the categories handler. -/
def catErrBody (code : String) : Body :=
  { ok := some false, success := none, error := some code, detail := none,
    categorySlug := none }

/-- `POST /api/categories` from `src/unnamed/part_005`, the `req.txRun`
branch (the deployed app always attaches `req.txRun`), on a run where every
database query succeeds; the database state is the list of `categories`
rows.  The duplicate-slug check inside the transaction throws the
`{ status: 409 }` error, which the route's catch turns into the
`409 slug_conflict` response; `newId` is the generated `uuidv4()`.  The
`SELECT ... WHERE id=$1` that builds the success payload is the lookup of
`newId` in the updated table. -/
def postCategory (user : Option AuthUser) (body : CatBody) (newId : String)
    (db : List Category) : Response × List Category :=
  match requireEditorOrAdmin2 user with
  | some r => (r, db)
  | none =>
    if !truthy body.name
        || String.mk (jsTrimChars (body.name.getD "").data) = "" then
      ({ status := 400, body := catErrBody "name_required" }, db)
    else
      match normalizeTradeTypeInput2
          (match body.trade_type with
           | none => some "both"
           | some s => some s) with
      | none => ({ status := 400, body := catErrBody "invalid_trade_type" }, db)
      | some trade_type =>
        let slug := slugify ((jsOr body.slug body.name).getD "")
        match db.find? (fun r => r.slug == slug) with
        | some _ => ({ status := 409, body := slugConflictBody }, db)
        | none =>
          let row : Category :=
            { id := newId, slug := slug, name := body.name.getD "",
              description := jsOr body.description none,
              parent_id := jsOr body.parent_id none,
              sort_order := body.sort_order.getD 0,
              trade_type := trade_type }
          let db2 := db ++ [row]
          let created := db2.find? (fun r => r.id == newId)
          ({ status := 201,
             body := { ok := some true, success := none, error := none,
                       detail := none,
                       categorySlug := created.map (fun r => r.slug) } },
           db2)

/-- An editor caller (`role` claim `2`), as in the spec's concrete
scenario A. -/
def editorUser : AuthUser := { id := some "e1", role := some 2 }

/-- The request body `{ name: "Industrial Machinery" }` with no slug. -/
def machineryBody : CatBody :=
  { name := some "Industrial Machinery", slug := none, trade_type := none,
    description := none, parent_id := none, sort_order := none }

/-- The row the first scenario-A request inserts. -/
def machineryRow : Category :=
  { id := "cat-1", slug := "industrial-machinery",
    name := "Industrial Machinery", description := none, parent_id := none,
    sort_order := 0, trade_type := "both" }

/-- A request body whose name has no characters `slugify` keeps. -/
def bangBody : CatBody :=
  { name := some "!!!", slug := none, trade_type := none,
    description := none, parent_id := none, sort_order := none }

/-- The empty-slug row the `"!!!"` request inserts. -/
def bangRow : Category :=
  { id := "cat-e1", slug := "", name := "!!!", description := none,
    parent_id := none, sort_order := 0, trade_type := "both" }

/-- A different request body whose derived slug is also empty. -/
def questionBody : CatBody :=
  { name := some "???", slug := none, trade_type := none,
    description := none, parent_id := none, sort_order := none }

/-- A run of the database where every query succeeds, around a unit of work
that issues one statement and returns 0. -/
def envAllOk : TxEnv Nat :=
  { beginErr := none, setIdErr := none, setRoleErr := none,
    fTrace := [Op.stmt 0], fResult := Except.ok 0,
    commitErr := none, rollbackErr := none }

/-- A run where the unit of work throws `"boom"` and the subsequent
`ROLLBACK` itself fails with `"rollback failed"`. -/
def envRollbackFails : TxEnv Nat :=
  { beginErr := none, setIdErr := none, setRoleErr := none,
    fTrace := [Op.stmt 0], fResult := Except.error "boom",
    commitErr := none, rollbackErr := some "rollback failed" }

/-- A run where the `SET LOCAL app.user_id` statement fails with
`"permission denied"` and everything else would succeed. -/
def envSetIdFails : TxEnv Nat :=
  { beginErr := none, setIdErr := some "permission denied", setRoleErr := none,
    fTrace := [Op.stmt 0], fResult := Except.ok 0,
    commitErr := none, rollbackErr := none }

/-- A `req.user` with id `"u1"` and role `"2"`, as the GUC helpers read
it. -/
def jsUser1 : JsUser :=
  { id := some "u1", user_id := none, sub := none,
    role := some "2", role_id := none, roleId := none }

/-- A database run where both `set_config` calls fail. -/
def gucEnvBothFail : GucEnv :=
  { setIdErr := some "denied-id", setRoleErr := some "denied-role" }

/-- Decidable equality for run outcomes. -/
def exceptDecEq {ε α : Type} [DecidableEq ε] [DecidableEq α] :
    (a b : Except ε α) → Decidable (a = b)
  | Except.ok x, Except.ok y =>
    if h : x = y then Decidable.isTrue (by rw [h])
    else Decidable.isFalse (by simp [h])
  | Except.ok _, Except.error _ => Decidable.isFalse (by simp)
  | Except.error _, Except.ok _ => Decidable.isFalse (by simp)
  | Except.error e, Except.error e2 =>
    if h : e = e2 then Decidable.isTrue (by rw [h])
    else Decidable.isFalse (by simp [h])

instance {ε α : Type} [DecidableEq ε] [DecidableEq α] :
    DecidableEq (Except ε α) := exceptDecEq

theorem runSteps_append {s1 s2 : List (List Op × Option String)}
    (h : (runSteps s1).2 = none) :
    runSteps (s1 ++ s2) =
      ((runSteps s1).1 ++ (runSteps s2).1, (runSteps s2).2) := by
  induction s1 with
  | nil => simp [runSteps]
  | cons s t ih =>
    obtain ⟨ops, err⟩ := s
    cases err with
    | some e => simp [runSteps] at h
    | none =>
      simp only [runSteps] at h ⊢
      simp only [List.append_eq]
      rw [ih h]
      simp [List.append_assoc]

theorem runSteps_not_mem {x : Op} {steps : List (List Op × Option String)}
    (h : ∀ s ∈ steps, x ∉ s.1) : x ∉ (runSteps steps).1 := by
  induction steps with
  | nil => simp [runSteps]
  | cons s t ih =>
    obtain ⟨ops, err⟩ := s
    cases err with
    | some e =>
      simpa [runSteps] using h (ops, some e) (by simp)
    | none =>
      simp only [runSteps, List.mem_append]
      push_neg
      exact ⟨h (ops, none) (by simp),
             ih (fun s hs => h s (List.mem_cons_of_mem _ hs))⟩

theorem runSteps_mem_of_none {steps : List (List Op × Option String)}
    (h : (runSteps steps).2 = none) :
    ∀ s ∈ steps, ∀ y ∈ s.1, y ∈ (runSteps steps).1 := by
  induction steps with
  | nil => simp
  | cons s t ih =>
    obtain ⟨ops, err⟩ := s
    cases err with
    | some e => simp [runSteps] at h
    | none =>
      simp only [runSteps] at h ⊢
      intro s hs y hy
      rw [List.mem_cons] at hs
      rcases hs with rfl | hs
      · exact List.mem_append_left _ hy
      · exact List.mem_append_right _ (ih h s hs y hy)

theorem getLast?_append_singleton {α : Type} (l : List α) (a : α) :
    (l ++ [a]).getLast? = some a := by
  induction l with
  | nil => rfl
  | cons b t ih =>
    rw [List.cons_append, List.getLast?_cons, ih]
    cases t <;> simp [List.getLast?]

theorem count_append_singleton_self {α : Type} [DecidableEq α]
    {l : List α} {a : α} (h : a ∉ l) : (l ++ [a]).count a = 1 := by
  rw [List.count_append]
  simp [List.count_eq_zero.mpr h]

theorem runSteps_none_all_ok {steps : List (List Op × Option String)}
    (h : (runSteps steps).2 = none) : ∀ s ∈ steps, s.2 = none := by
  induction steps with
  | nil => simp
  | cons s t ih =>
    obtain ⟨ops, err⟩ := s
    cases err with
    | some e => simp [runSteps] at h
    | none =>
      simp only [runSteps] at h
      intro s hs
      rw [List.mem_cons] at hs
      rcases hs with rfl | hs
      · rfl
      · exact ih h s hs

theorem runTx_eq_ok {α : Type} {steps : List (List Op × Option String)}
    {fr : Except String α} {rb : Option String} {sw : Bool}
    (h : (runSteps steps).2 = none) :
    runTx steps fr rb sw = ((runSteps steps).1 ++ [Op.release], fr) := by
  unfold runTx
  rcases hrs : runSteps steps with ⟨t, r⟩
  rw [hrs] at h
  replace h : r = none := h
  subst h
  rfl

theorem runTx_eq_err {α : Type} {steps : List (List Op × Option String)}
    {fr : Except String α} {rb : Option String} {sw : Bool} {e : String}
    (h : (runSteps steps).2 = some e) :
    runTx steps fr rb sw =
      ((runSteps steps).1 ++ [Op.rollback, Op.release],
       if sw then Except.error e
       else
         match rb with
         | some e2 => Except.error e2
         | none => Except.error e) := by
  unfold runTx
  rcases hrs : runSteps steps with ⟨t, r⟩
  rw [hrs] at h
  replace h : r = some e := h
  subst h
  rfl

theorem mem_ite_singleton {β : Type} {c : Prop} [Decidable c] {s x : β}
    (h : s ∈ (if c then [x] else [])) : s = x := by
  split at h
  · simpa using h
  · simp at h

theorem txBodySteps_shape {α : Type} (env : TxEnv α)
    (uid urole : Option String) :
    ∀ s ∈ txBodySteps uid urole env,
      s = ([Op.beginTx], env.beginErr)
      ∨ s = ([Op.setLocalUserId (uid.getD "")], env.setIdErr)
      ∨ s = ([Op.setLocalUserRole (urole.getD "")], env.setRoleErr)
      ∨ s = (env.fTrace, fErr env.fResult)
      ∨ s = ([Op.commit], env.commitErr) := by
  intro s hs
  unfold txBodySteps at hs
  rcases List.mem_append.mp hs with hs | hlast
  · rcases List.mem_append.mp hs with hs | h3
    · rcases List.mem_append.mp hs with h1 | h2
      · exact Or.inl (List.mem_singleton.mp h1)
      · exact Or.inr (Or.inl (mem_ite_singleton h2))
    · exact Or.inr (Or.inr (Or.inl (mem_ite_singleton h3)))
  · rw [List.mem_cons, List.mem_singleton] at hlast
    rcases hlast with rfl | rfl
    · exact Or.inr (Or.inr (Or.inr (Or.inl rfl)))
    · exact Or.inr (Or.inr (Or.inr (Or.inr rfl)))

theorem runTx_facts {α : Type} {steps : List (List Op × Option String)}
    {fr : Except String α} {rb : Option String} {sw : Bool}
    (hrel : ∀ s ∈ steps, Op.release ∉ s.1)
    (ce : Option String) (hcs : ([Op.commit], ce) ∈ steps)
    (ft : List Op) (hfs : (ft, fErr fr) ∈ steps) :
    (runTx steps fr rb sw).1.count Op.release = 1
    ∧ (runTx steps fr rb sw).1.getLast? = some Op.release
    ∧ (∀ a, (runTx steps fr rb sw).2 = Except.ok a →
        Op.commit ∈ (runTx steps fr rb sw).1)
    ∧ (∀ e, (runTx steps fr rb sw).2 = Except.error e →
        Op.rollback ∈ (runTx steps fr rb sw).1) := by
  have hnm : Op.release ∉ (runSteps steps).1 := runSteps_not_mem hrel
  cases hr2 : (runSteps steps).2 with
  | none =>
    rw [runTx_eq_ok hr2]
    refine ⟨count_append_singleton_self hnm,
            getLast?_append_singleton _ _, fun a _ => ?_, fun e he => ?_⟩
    · exact List.mem_append_left _
        (runSteps_mem_of_none hr2 _ hcs Op.commit (by simp))
    · exfalso
      have hok := runSteps_none_all_ok hr2 _ hfs
      replace hok : fErr fr = none := hok
      replace he : fr = Except.error e := he
      rw [he] at hok
      simp [fErr] at hok
  | some e =>
    rw [runTx_eq_err hr2]
    have hsplit : (runSteps steps).1 ++ [Op.rollback, Op.release] =
        ((runSteps steps).1 ++ [Op.rollback]) ++ [Op.release] := by simp
    have hnm2 : Op.release ∉ (runSteps steps).1 ++ [Op.rollback] := by
      simp [hnm]
    refine ⟨?_, ?_, fun a ha => ?_, fun e2 _ => ?_⟩
    · rw [hsplit]
      exact count_append_singleton_self hnm2
    · rw [hsplit]
      exact getLast?_append_singleton _ _
    · exfalso
      revert ha
      cases sw <;> cases rb <;> simp
    · exact List.mem_append_right _ (by simp)

/-- C8: creating a category as an Editor with name `"Industrial Machinery"`
and no slug derives the slug `"industrial-machinery"` and answers `201`;
repeating the identical request against the resulting table answers
`409 slug_conflict` and leaves the table unchanged, so exactly one row with
that slug exists. -/
theorem category_create_then_conflict :
    slugify "Industrial Machinery" = "industrial-machinery"
    ∧ postCategory (some editorUser) machineryBody "cat-1" [] =
        ({ status := 201,
           body := { ok := some true, success := none, error := none,
                     detail := none,
                     categorySlug := some "industrial-machinery" } },
         [machineryRow])
    ∧ postCategory (some editorUser) machineryBody "cat-2" [machineryRow] =
        ({ status := 409, body := slugConflictBody }, [machineryRow]) := by
  refine ⟨by decide, by decide, by decide⟩

theorem postCategory_empty_slug_conflict (user : Option AuthUser)
    (body : CatBody) (newId : String) (db : List Category) (tt : String)
    (hauth : requireEditorOrAdmin2 user = none)
    (hname : (!truthy body.name
        || decide (String.mk (jsTrimChars (body.name.getD "").data) = ""))
        = false)
    (htt : normalizeTradeTypeInput2
        (match body.trade_type with
         | none => some "both"
         | some s => some s) = some tt)
    (hslug : slugify ((jsOr body.slug body.name).getD "") = "")
    (hempty : ∃ r ∈ db, r.slug = "") :
    postCategory user body newId db =
      ({ status := 409, body := slugConflictBody }, db) := by
  obtain ⟨r0, hr0, hs0⟩ := hempty
  cases hfind : db.find? (fun r =>
      r.slug == slugify ((jsOr body.slug body.name).getD "")) with
  | none =>
    exfalso
    have hnone := List.find?_eq_none.mp hfind r0 hr0
    rw [hslug, hs0] at hnone
    simp at hnone
  | some c =>
    unfold postCategory
    rw [hauth]
    simp only [hname, Bool.false_eq_true, if_false, htt, hfind]

/-- C10: a name with no slug-safe characters (`"!!!"`) slugifies to the
empty string and is not rejected: the category is created with slug `""`
and status `201`; and EVERY later creation request whose derived slug is
also empty — any request that passes the editor/admin guard, the
non-empty-name check and trade-type validation, and whose
`slugify(body.slug || body.name)` is `""` — receives `409 slug_conflict`
and inserts nothing, as long as the table holds a row with the empty slug
(the request with name `"???"` is one such instance). -/
theorem category_empty_slug_created_then_conflict :
    slugify "!!!" = ""
    ∧ postCategory (some editorUser) bangBody "cat-e1" [] =
        ({ status := 201,
           body := { ok := some true, success := none, error := none,
                     detail := none, categorySlug := some "" } },
         [bangRow])
    ∧ slugify "???" = ""
    ∧ postCategory (some editorUser) questionBody "cat-e2" [bangRow] =
        ({ status := 409, body := slugConflictBody }, [bangRow])
    ∧ (∀ (user : Option AuthUser) (body : CatBody) (newId : String)
         (db : List Category) (tt : String),
         requireEditorOrAdmin2 user = none →
         (!truthy body.name
           || decide (String.mk (jsTrimChars (body.name.getD "").data) = ""))
           = false →
         normalizeTradeTypeInput2
           (match body.trade_type with
            | none => some "both"
            | some s => some s) = some tt →
         slugify ((jsOr body.slug body.name).getD "") = "" →
         (∃ r ∈ db, r.slug = "") →
         postCategory user body newId db =
           ({ status := 409, body := slugConflictBody }, db)) := by
  refine ⟨by decide, by decide, by decide, by decide, ?_⟩
  intro user body newId db tt hauth hname htt hslug hempty
  exact postCategory_empty_slug_conflict user body newId db tt hauth hname
    htt hslug hempty

/-- Witness for C10's universal conjunct at the `"???"` request against the
table holding the empty-slug row. -/
theorem category_empty_slug_created_then_conflict_w :
    requireEditorOrAdmin2 (some editorUser) = none
    ∧ (!truthy questionBody.name
        || decide (String.mk
            (jsTrimChars (questionBody.name.getD "").data) = "")) = false
    ∧ normalizeTradeTypeInput2
        (match questionBody.trade_type with
         | none => some "both"
         | some s => some s) = some "both"
    ∧ slugify ((jsOr questionBody.slug questionBody.name).getD "") = ""
    ∧ (∃ r ∈ [bangRow], r.slug = "")
    ∧ postCategory (some editorUser) questionBody "cat-e2" [bangRow] =
        ({ status := 409, body := slugConflictBody }, [bangRow]) :=
  ⟨by decide, by decide, by decide, by decide, by decide,
   category_empty_slug_created_then_conflict.2.2.2.2 (some editorUser)
     questionBody "cat-e2" [bangRow] "both" (by decide) (by decide)
     (by decide) (by decide) (by decide)⟩

/-- C7: a capability name absent from the `PERMISSIONS` registry makes the
role-gate answer `500 server_error` regardless of the caller — a server
error, not a `403` denial. -/
theorem unknown_capability_is_server_error (name : String)
    (user : Option AuthUser) (h : lookupPermission name = none) :
    hasPermission name user =
      MWResult.respond { status := 500, body := gateServerErrorBody } := by
  unfold hasPermission
  rw [h]

/-- Witness for C7 at the unregistered capability `"products.write"` with an
anonymous caller. -/
theorem unknown_capability_is_server_error_w :
    lookupPermission "products.write" = none
    ∧ hasPermission "products.write" none =
        MWResult.respond { status := 500, body := gateServerErrorBody } :=
  ⟨by decide, unknown_capability_is_server_error "products.write" none (by decide)⟩

/-- C6: for every registered capability, an anonymous request (no
`req.user`) is admitted exactly when the capability's role list contains
Guest (4); when it does not, the gate answers `403 not_allowed` and the
downstream handler — the only place a transaction is begun or a pooled
connection acquired — never runs, so the route produces no database
events. -/
theorem guest_admitted_iff_listed (name : String) (roles : List Nat)
    (h : lookupPermission name = some roles) :
    (hasPermission name none = MWResult.next none ↔
      roles.contains ROLE_GUEST = true)
    ∧ (roles.contains ROLE_GUEST = false →
        hasPermission name none =
          MWResult.respond { status := 403, body := gateNotAllowedBody }
        ∧ ∀ handler, runGate name none handler =
            ([], { status := 403, body := gateNotAllowedBody })) := by
  constructor
  · unfold hasPermission
    rw [h]
    cases hc : roles.contains ROLE_GUEST <;> simp_all
  · intro hc
    have hg : hasPermission name none =
        MWResult.respond { status := 403, body := gateNotAllowedBody } := by
      unfold hasPermission
      rw [h]
      have hm : ROLE_GUEST ∉ roles := by simpa using hc
      simp [hm]
    refine ⟨hg, fun handler => ?_⟩
    unfold runGate
    rw [hg]

/-- Witness for C6 at `"blog.create"`, whose role list `[1]` does not list
Guest. -/
theorem guest_admitted_iff_listed_w :
    lookupPermission "blog.create" = some [ROLE_ADMIN]
    ∧ ((hasPermission "blog.create" none = MWResult.next none ↔
          [ROLE_ADMIN].contains ROLE_GUEST = true)
       ∧ ([ROLE_ADMIN].contains ROLE_GUEST = false →
            hasPermission "blog.create" none =
              MWResult.respond { status := 403, body := gateNotAllowedBody }
            ∧ ∀ handler, runGate "blog.create" none handler =
                ([], { status := 403, body := gateNotAllowedBody }))) :=
  ⟨by decide, guest_admitted_iff_listed "blog.create" [ROLE_ADMIN] (by decide)⟩

/-- C2, counterexample: the claim "401 if and only if an Authorization
header with the `Bearer ` marker is present and its token fails
verification" fails at the header `"Bearer "`.  Its token is the empty
string, which every verifier rejects (the one used here rejects all
tokens, as `jwt.verify` does on the empty string), yet the middleware's
`if (!token)` guard treats the request as anonymous instead of answering
401. -/
theorem bearer_empty_token_goes_anonymous :
    ¬ (∀ (verify : String → Option Payload) (header : Option String),
        jsStarts (header.getD "") "Bearer " = true →
        verify (String.mk ((header.getD "").data.drop 7)) = none →
        isUnauthorized (jwtAuthMiddleware verify header) = true) := by
  intro h
  exact absurd (h (fun _ => none) (some "Bearer ") (by decide) rfl) (by decide)

/-- C2, amended: the middleware answers 401 exactly when the header starts
with `Bearer ` followed by a NONEMPTY token that fails verification; a
missing header is the anonymous path, never an error.  (A header of exactly
`"Bearer "` carries the empty token and is also treated as anonymous.) -/
theorem unauthorized_iff_nonempty_failing_token
    (verify : String → Option Payload) (header : Option String) :
    (isUnauthorized (jwtAuthMiddleware verify header) = true ↔
      (jsStarts (header.getD "") "Bearer " = true
       ∧ ¬ String.mk ((header.getD "").data.drop 7) = ""
       ∧ verify (String.mk ((header.getD "").data.drop 7)) = none))
    ∧ jwtAuthMiddleware verify none = MWResult.next none := by
  constructor
  · unfold jwtAuthMiddleware
    cases hs : jsStarts (header.getD "") "Bearer "
    · simp [hs, isUnauthorized]
    · by_cases ht : String.mk ((header.getD "").data.drop 7) = ""
      · simp [hs, ht, isUnauthorized]
      · cases hv : verify (String.mk ((header.getD "").data.drop 7)) <;>
          simp [hs, ht, hv, isUnauthorized]
  · rfl

/-- Witness for the amended C2 at a rejecting verifier with the header
`"Bearer x"`. -/
theorem unauthorized_iff_nonempty_failing_token_w :
    (isUnauthorized (jwtAuthMiddleware (fun _ => none) (some "Bearer x"))
        = true ↔
      (jsStarts ((some "Bearer x").getD "") "Bearer " = true
       ∧ ¬ String.mk (((some "Bearer x").getD "").data.drop 7) = ""
       ∧ (fun _ => (none : Option Payload))
           (String.mk (((some "Bearer x").getD "").data.drop 7)) = none))
    ∧ jwtAuthMiddleware (fun _ => none) none = MWResult.next none :=
  unauthorized_iff_nonempty_failing_token (fun _ => none) (some "Bearer x")

/-- C9, counterexample: the authentication middleware's 401 carries
`{ success: false, error: 'invalid_token' }` — there is no `ok` field at
all, so the error envelope `{ ok: false, error: <code> }` of the claim is
not what this error response looks like. -/
theorem jwt_401_has_no_ok_field :
    jwtAuthMiddleware (fun _ => none) (some "Bearer x") =
      MWResult.respond { status := 401, body := jwtInvalidBody }
    ∧ jwtInvalidBody.ok = none
    ∧ jwtInvalidBody.success = some false := ⟨rfl, rfl, rfl⟩

/-- C9, amended: the categories route does use the envelope — every one of
its responses carries an explicit `ok`, and `ok: true` exactly on the 201
success — but the authentication middleware's only error response is the
401 `{ success: false, error: 'invalid_token' }` with no `ok` field, and
the role-gate's 403/500 responses carry only `{ error: <code> }`, again
with no `ok` field. -/
theorem envelope_shapes :
    (∀ (user : Option AuthUser) (body : CatBody) (newId : String)
       (db : List Category),
       ((postCategory user body newId db).1.body.ok).isSome = true
       ∧ ((postCategory user body newId db).1.status = 201 ↔
           (postCategory user body newId db).1.body.ok = some true))
    ∧ (∀ (verify : String → Option Payload) (header : Option String)
         (r : Response),
         jwtAuthMiddleware verify header = MWResult.respond r →
         r = { status := 401, body := jwtInvalidBody })
    ∧ (∀ (name : String) (user : Option AuthUser) (r : Response),
         hasPermission name user = MWResult.respond r →
         r.body.ok = none ∧ (r.body.error).isSome = true) := by
  refine ⟨fun user body newId db => ?_, fun verify header r h => ?_,
          fun name user r h => ?_⟩
  · unfold postCategory
    cases hg : requireEditorOrAdmin2 user with
    | some resp =>
      unfold requireEditorOrAdmin2 at hg
      cases user with
      | none =>
        injection hg with hg
        simp [← hg]
      | some u =>
        rcases u with ⟨uid, urole⟩
        match urole with
        | none => injection hg with hg; simp [← hg]
        | some 0 => injection hg with hg; simp [← hg]
        | some 1 => exact absurd hg (by simp)
        | some 2 => exact absurd hg (by simp)
        | some (n + 3) => injection hg with hg; simp [← hg]
    | none =>
      by_cases hn : (!truthy body.name
          || decide (String.mk (jsTrimChars (body.name.getD "").data) = "")) = true
      · simp only [hn, if_true]
        simp [catErrBody]
      · simp only [Bool.not_eq_true] at hn
        simp only [hn, Bool.false_eq_true, if_false]
        cases hT : normalizeTradeTypeInput2
            (match body.trade_type with
             | none => some "both"
             | some s => some s) with
        | none => simp [catErrBody]
        | some tt =>
          cases hd : db.find? (fun r =>
              r.slug == slugify ((jsOr body.slug body.name).getD "")) with
          | some c => simp [hd, slugConflictBody]
          | none => simp [hd]
  · unfold jwtAuthMiddleware at h
    cases hs : jsStarts ((header.getD "" : String)) "Bearer "
    · rw [hs] at h
      replace h : MWResult.next none = MWResult.respond r := h
      exact absurd h (by simp)
    · rw [hs] at h
      replace h : (if String.mk ((header.getD "").data.drop 7) = "" then
          MWResult.next none
        else
          match verify (String.mk ((header.getD "").data.drop 7)) with
          | none => MWResult.respond { status := 401, body := jwtInvalidBody }
          | some p =>
            MWResult.next (some { id := jsOr (jsOr p.sub p.user_id) p.id,
                                  role := p.role })) = MWResult.respond r := h
      by_cases ht : String.mk ((header.getD "").data.drop 7) = ""
      · rw [if_pos ht] at h
        exact absurd h (by simp)
      · rw [if_neg ht] at h
        cases hv : verify (String.mk ((header.getD "").data.drop 7)) <;>
          rw [hv] at h
        · injection h with h
          exact h.symm
        · exact absurd h (by simp)
  · unfold hasPermission at h
    cases hl : lookupPermission name <;> rw [hl] at h
    · injection h with h
      rw [← h]
      exact ⟨rfl, rfl⟩
    · rename_i allowedRoles
      cases user with
      | none =>
        replace h : (if allowedRoles.contains ROLE_GUEST = true then
            MWResult.next none
          else MWResult.respond { status := 403, body := gateNotAllowedBody })
            = MWResult.respond r := h
        by_cases hc : allowedRoles.contains ROLE_GUEST = true
        · rw [if_pos hc] at h
          exact absurd h (by simp)
        · rw [if_neg hc] at h
          injection h with h
          rw [← h]
          exact ⟨rfl, rfl⟩
      | some u =>
        replace h : (if (match u.role with
              | some r => allowedRoles.contains r
              | none => false) = true then MWResult.next (some u)
            else MWResult.respond { status := 403, body := gateForbiddenBody })
            = MWResult.respond r := h
        by_cases hm : (match u.role with
            | some r => allowedRoles.contains r
            | none => false) = true
        · rw [if_pos hm] at h
          exact absurd h (by simp)
        · rw [if_neg hm] at h
          injection h with h
          rw [← h]
          exact ⟨rfl, rfl⟩

/-- Witness for the amended C9: the Editor's scenario-A request, the
rejecting verifier at `"Bearer x"`, and the anonymous `"blog.create"`
denial. -/
theorem envelope_shapes_w :
    (((postCategory (some editorUser) machineryBody "cat-1" []).1.body.ok).isSome = true
     ∧ ((postCategory (some editorUser) machineryBody "cat-1" []).1.status = 201 ↔
        (postCategory (some editorUser) machineryBody "cat-1" []).1.body.ok = some true))
    ∧ ({ status := 401, body := jwtInvalidBody } : Response) =
        { status := 401, body := jwtInvalidBody }
    ∧ (({ status := 403, body := gateNotAllowedBody } : Response).body.ok = none
       ∧ (({ status := 403, body := gateNotAllowedBody } : Response).body.error).isSome = true) :=
  ⟨envelope_shapes.1 (some editorUser) machineryBody "cat-1" [],
   envelope_shapes.2.1 (fun _ => none) (some "Bearer x")
     { status := 401, body := jwtInvalidBody } rfl,
   envelope_shapes.2.2 "blog.create" none
     { status := 403, body := gateNotAllowedBody } rfl⟩

/-- C1, counterexample: the claim promises both session variables whenever
`userId` and `userRole` are non-null, but `txRun`'s guard is JavaScript
truthiness.  With the non-null empty string as `userId`, `SET LOCAL
app.user_id` is never issued: the whole run is
`BEGIN; SET LOCAL app.user_role; f; COMMIT; release` and no
`setLocalUserId` event occurs before `f`'s statement (or at all). -/
theorem empty_userId_never_set :
    txRun (some "") (some "2") envAllOk =
      ([Op.beginTx, Op.setLocalUserRole "2", Op.stmt 0, Op.commit,
        Op.release], Except.ok 0)
    ∧ Op.setLocalUserId "" ∉ (txRun (some "") (some "2") envAllOk).1 := by
  refine ⟨rfl, by decide⟩

/-- C1, amended: whenever `userId` and `userRole` are truthy (non-null AND
non-empty) and `BEGIN` and the two `SET LOCAL` statements succeed, the run
issues `BEGIN`, then `SET LOCAL app.user_id`, then `SET LOCAL
app.user_role`, and only then the statements of the caller-supplied `f`:
both session variables are set inside the transaction, after `BEGIN` and
before any statement of `f`. -/
theorem txRun_sets_both_vars_before_f {α : Type} (env : TxEnv α)
    (userId userRole : Option String)
    (hu : truthy userId = true) (hr : truthy userRole = true)
    (hb : env.beginErr = none) (hi : env.setIdErr = none)
    (hs : env.setRoleErr = none) :
    ∃ tail, (txRun userId userRole env).1 =
      Op.beginTx :: Op.setLocalUserId (userId.getD "")
        :: Op.setLocalUserRole (userRole.getD "")
        :: (env.fTrace ++ tail) := by
  cases hf : fErr env.fResult with
  | some e =>
    refine ⟨[Op.rollback, Op.release], ?_⟩
    simp [txRun, runTx, txBodySteps, runSteps, hu, hr, hb, hi, hs, hf]
  | none =>
    cases hc : env.commitErr with
    | some e =>
      refine ⟨[Op.commit, Op.rollback, Op.release], ?_⟩
      simp [txRun, runTx, txBodySteps, runSteps, hu, hr, hb, hi, hs, hf, hc]
    | none =>
      refine ⟨[Op.commit, Op.release], ?_⟩
      simp [txRun, runTx, txBodySteps, runSteps, hu, hr, hb, hi, hs, hf, hc]

/-- Witness for the amended C1 on an all-successful run with truthy
identity `("u1", "2")`. -/
theorem txRun_sets_both_vars_before_f_w :
    truthy (some "u1") = true ∧ truthy (some "2") = true
    ∧ envAllOk.beginErr = none ∧ envAllOk.setIdErr = none
    ∧ envAllOk.setRoleErr = none
    ∧ ∃ tail, (txRun (some "u1") (some "2") envAllOk).1 =
        Op.beginTx :: Op.setLocalUserId ((some "u1").getD "")
          :: Op.setLocalUserRole ((some "2").getD "")
          :: (envAllOk.fTrace ++ tail) :=
  ⟨by decide, by decide, rfl, rfl, rfl,
   txRun_sets_both_vars_before_f envAllOk (some "u1") (some "2")
     (by decide) (by decide) rfl rfl rfl⟩

/-- C3, counterexample: in `transaction.js`'s `txRun`, when `f` throws
`"boom"` and the rollback itself fails with `"rollback failed"`, the error
given to the caller is the rollback failure, not the original error — and
the trace shows no `warn` event, so nothing was logged either. -/
theorem rollback_failure_replaces_original_error :
    txRun none none envRollbackFails =
      ([Op.beginTx, Op.stmt 0, Op.rollback, Op.release],
       Except.error "rollback failed")
    ∧ (txRun none none envRollbackFails).2 ≠
        (Except.error "boom" : Except String Nat) := by
  refine ⟨rfl, by decide⟩

/-- C3, amended: when `f` throws, every `txRun` variant issues a rollback,
but no variant logs a rollback failure.  In `transaction.js`'s `txRun` a
failing rollback's own error replaces the original error; in the
`index.js` `txRun` the rollback failure is silently swallowed and the
original error propagates (its trace is exactly `BEGIN`, `f`'s events,
`ROLLBACK`, release — no log event is added by `txRun` itself). -/
theorem rollback_error_propagation :
    (∀ (α : Type) (env : TxEnv α) (uid urole : Option String) (e : String),
       env.beginErr = none → env.setIdErr = none → env.setRoleErr = none →
       env.fResult = Except.error e →
       Op.rollback ∈ (txRun uid urole env).1
       ∧ (txRun uid urole env).2 =
           (match env.rollbackErr with
            | some e2 => Except.error e2
            | none => Except.error e))
    ∧ (∀ (α : Type) (env : TxEnv α) (e : String),
       env.beginErr = none → env.fResult = Except.error e →
       indexTxRun [] env =
         (Op.beginTx :: (env.fTrace ++ [Op.rollback, Op.release]),
          Except.error e)) := by
  constructor
  · intro α env uid urole e hb hi hs hfr
    have h2 : (runSteps (txBodySteps uid urole env)).2 = some e := by
      unfold txBodySteps
      cases hu : truthy uid <;> cases hr : truthy urole <;>
        simp [runSteps, hb, hi, hs, hfr, fErr]
    unfold txRun
    rw [runTx_eq_err h2]
    exact ⟨List.mem_append_right _ (by simp), rfl⟩
  · intro α env e hb hfr
    have h2 : (runSteps ([([Op.beginTx], env.beginErr)] ++ []
        ++ [(env.fTrace, fErr env.fResult),
            ([Op.commit], env.commitErr)])).2 = some e := by
      simp [runSteps, hb, hfr, fErr]
    unfold indexTxRun
    rw [runTx_eq_err h2]
    simp [runSteps, hb, hfr, fErr]

/-- Witness for the amended C3 on the run where `f` throws `"boom"` and the
rollback fails with `"rollback failed"`. -/
theorem rollback_error_propagation_w :
    (Op.rollback ∈ (txRun none none envRollbackFails).1
     ∧ (txRun none none envRollbackFails).2 =
         (match envRollbackFails.rollbackErr with
          | some e2 => Except.error e2
          | none => Except.error "boom"))
    ∧ indexTxRun [] envRollbackFails =
        (Op.beginTx :: (envRollbackFails.fTrace
          ++ [Op.rollback, Op.release]), Except.error "boom") :=
  ⟨rollback_error_propagation.1 Nat envRollbackFails none none "boom"
     rfl rfl rfl rfl,
   rollback_error_propagation.2 Nat envRollbackFails "boom" rfl rfl⟩

/-- C4: for both the `transaction.js` and the `db.middleware.js` `txRun`
(whose unit-of-work function does not itself release the connection), every
run releases the connection exactly once, as its very last event; on a
successful outcome `COMMIT` was issued before it, and on an error outcome a
rollback was attempted before it. -/
theorem connection_released_exactly_once :
    (∀ (α : Type) (env : TxEnv α) (userId userRole : Option String),
       Op.release ∉ env.fTrace →
       (txRun userId userRole env).1.count Op.release = 1
       ∧ (txRun userId userRole env).1.getLast? = some Op.release
       ∧ (∀ a, (txRun userId userRole env).2 = Except.ok a →
           Op.commit ∈ (txRun userId userRole env).1)
       ∧ (∀ e, (txRun userId userRole env).2 = Except.error e →
           Op.rollback ∈ (txRun userId userRole env).1))
    ∧ (∀ (α : Type) (env : TxEnv α),
       Op.release ∉ env.fTrace →
       (dbTxRun env).1.count Op.release = 1
       ∧ (dbTxRun env).1.getLast? = some Op.release
       ∧ (∀ a, (dbTxRun env).2 = Except.ok a →
           Op.commit ∈ (dbTxRun env).1)
       ∧ (∀ e, (dbTxRun env).2 = Except.error e →
           Op.rollback ∈ (dbTxRun env).1)) := by
  constructor
  · intro α env userId userRole hfx
    have hrel : ∀ s ∈ txBodySteps userId userRole env, Op.release ∉ s.1 := by
      intro s hsmem
      rcases txBodySteps_shape env userId userRole s hsmem with
        rfl | rfl | rfl | rfl | rfl <;> simp [hfx]
    have hcs : ([Op.commit], env.commitErr) ∈
        txBodySteps userId userRole env := by
      simp [txBodySteps]
    have hfs : (env.fTrace, fErr env.fResult) ∈
        txBodySteps userId userRole env := by
      simp [txBodySteps]
    unfold txRun
    exact runTx_facts hrel env.commitErr hcs env.fTrace hfs
  · intro α env hfx
    have hrel : ∀ s ∈ [([Op.beginTx], env.beginErr),
        (env.fTrace, fErr env.fResult), ([Op.commit], env.commitErr)],
        Op.release ∉ s.1 := by
      intro s hsmem
      rw [List.mem_cons, List.mem_cons, List.mem_singleton] at hsmem
      rcases hsmem with rfl | rfl | rfl <;> simp [hfx]
    unfold dbTxRun
    exact runTx_facts hrel env.commitErr (by simp) env.fTrace (by simp)

/-- Witness for C4 on an all-successful run and a rollback-failing run. -/
theorem connection_released_exactly_once_w :
    (Op.release ∉ envAllOk.fTrace
     ∧ ((txRun (some "u1") (some "2") envAllOk).1.count Op.release = 1
        ∧ (txRun (some "u1") (some "2") envAllOk).1.getLast? =
            some Op.release
        ∧ (∀ a, (txRun (some "u1") (some "2") envAllOk).2 = Except.ok a →
            Op.commit ∈ (txRun (some "u1") (some "2") envAllOk).1)
        ∧ (∀ e, (txRun (some "u1") (some "2") envAllOk).2 =
              Except.error e →
            Op.rollback ∈ (txRun (some "u1") (some "2") envAllOk).1)))
    ∧ (Op.release ∉ envRollbackFails.fTrace
       ∧ ((dbTxRun envRollbackFails).1.count Op.release = 1
          ∧ (dbTxRun envRollbackFails).1.getLast? = some Op.release
          ∧ (∀ a, (dbTxRun envRollbackFails).2 = Except.ok a →
              Op.commit ∈ (dbTxRun envRollbackFails).1)
          ∧ (∀ e, (dbTxRun envRollbackFails).2 = Except.error e →
              Op.rollback ∈ (dbTxRun envRollbackFails).1))) :=
  ⟨⟨by decide, connection_released_exactly_once.1 Nat envAllOk
      (some "u1") (some "2") (by decide)⟩,
   ⟨by decide, connection_released_exactly_once.2 Nat envRollbackFails
      (by decide)⟩⟩

/-- C5, counterexample: in `transaction.js`'s `txRun`, the claim fails — a
failing `SET LOCAL app.user_id` is NOT non-fatal there: the unit of work is
aborted (rollback, error propagated), `f` never runs, nothing is committed,
and no `warn` event is logged. -/
theorem set_local_failure_aborts_unit_of_work :
    txRun (some "u1") (some "2") envSetIdFails =
      ([Op.beginTx, Op.setLocalUserId "u1", Op.rollback, Op.release],
       Except.error "permission denied")
    ∧ Op.stmt 0 ∉ (txRun (some "u1") (some "2") envSetIdFails).1
    ∧ Op.commit ∉ (txRun (some "u1") (some "2") envSetIdFails).1 := by
  refine ⟨rfl, by decide, by decide⟩

/-- C5, amended: in the route-helper paths the claim does hold — a failing
`set_config` inside `setAppUserGucs` / `setAppUserIdIfPresent` is caught,
a `console.warn` is emitted, and the unit of work carries on and commits
(the `index.js` `txRun` around it still returns `f`'s result) — but in
`transaction.js`'s `txRun` a failing `SET LOCAL` aborts the unit of
work. -/
theorem guc_helper_failures_nonfatal :
    (∀ (genv : GucEnv) (user : Option JsUser) (rest : List Op) (a : Nat),
       (indexTxRun []
          { beginErr := none, setIdErr := none, setRoleErr := none,
            fTrace := setAppUserGucs genv user ++ rest,
            fResult := Except.ok a, commitErr := none,
            rollbackErr := none }).2 = Except.ok a
       ∧ Op.commit ∈ (indexTxRun []
          { beginErr := none, setIdErr := none, setRoleErr := none,
            fTrace := setAppUserGucs genv user ++ rest,
            fResult := Except.ok a, commitErr := none,
            rollbackErr := none }).1)
    ∧ (∀ (genv : GucEnv) (user : Option JsUser) (e v : String),
        genv.setIdErr = some e → jsUserId user = some v →
        Op.warn ("setAppUserGucs app.user_id " ++ e) ∈
          setAppUserGucs genv user)
    ∧ (∀ (genv : GucEnv) (user : Option JsUser) (e v : String),
        genv.setRoleErr = some e → jsUserRole user = some v →
        Op.warn ("setAppUserGucs app.user_role " ++ e) ∈
          setAppUserGucs genv user)
    ∧ (∀ (err : Option String) (user : Option JsUser) (e v : String),
        err = some e → jsUserId user = some v →
        Op.warn ("setAppUserIdIfPresent " ++ e) ∈
          setAppUserIdIfPresent err user) := by
  refine ⟨fun genv user rest a => ?_, fun genv user e v he hv => ?_,
          fun genv user e v he hv => ?_, fun err user e v he hv => ?_⟩
  · have h2 : (runSteps ([([Op.beginTx], (none : Option String))] ++ []
        ++ [(setAppUserGucs genv user ++ rest, fErr (Except.ok a)),
            ([Op.commit], (none : Option String))])).2 = none := by
      simp [runSteps, fErr]
    unfold indexTxRun
    rw [runTx_eq_ok h2]
    refine ⟨rfl, List.mem_append_left _ ?_⟩
    exact runSteps_mem_of_none h2 ([Op.commit], none) (by simp) Op.commit
      (by simp)
  · unfold setAppUserGucs
    rw [hv, he]
    simp
  · unfold setAppUserGucs
    rw [hv, he]
    simp
  · unfold setAppUserIdIfPresent
    rw [hv, he]
    simp

/-- Witness for the amended C5: with both `set_config` calls failing for
user `"u1"`/role `"2"`, the composed unit of work still commits and both
warn events are logged. -/
theorem guc_helper_failures_nonfatal_w :
    ((indexTxRun []
        { beginErr := none, setIdErr := none, setRoleErr := none,
          fTrace := setAppUserGucs gucEnvBothFail (some jsUser1)
            ++ [Op.stmt 0],
          fResult := Except.ok 0, commitErr := none,
          rollbackErr := none }).2 = Except.ok 0
     ∧ Op.commit ∈ (indexTxRun []
        { beginErr := none, setIdErr := none, setRoleErr := none,
          fTrace := setAppUserGucs gucEnvBothFail (some jsUser1)
            ++ [Op.stmt 0],
          fResult := Except.ok 0, commitErr := none,
          rollbackErr := none }).1)
    ∧ Op.warn ("setAppUserGucs app.user_id " ++ "denied-id") ∈
        setAppUserGucs gucEnvBothFail (some jsUser1)
    ∧ Op.warn ("setAppUserGucs app.user_role " ++ "denied-role") ∈
        setAppUserGucs gucEnvBothFail (some jsUser1)
    ∧ Op.warn ("setAppUserIdIfPresent " ++ "denied-id") ∈
        setAppUserIdIfPresent (some "denied-id") (some jsUser1) :=
  ⟨guc_helper_failures_nonfatal.1 gucEnvBothFail (some jsUser1)
     [Op.stmt 0] 0,
   guc_helper_failures_nonfatal.2.1 gucEnvBothFail (some jsUser1)
     "denied-id" "u1" rfl (by decide),
   guc_helper_failures_nonfatal.2.2.1 gucEnvBothFail (some jsUser1)
     "denied-role" "2" rfl (by decide),
   guc_helper_failures_nonfatal.2.2.2 (some "denied-id") (some jsUser1)
     "denied-id" "u1" rfl (by decide)⟩

end Sprada
